import Mathlib

/-!
Shallow embedding of the aegis-marketing-suite core: the Orchestrator
intent router (`server/agents/Orchestrator.js`), the CreativeAgent
(`server/agents/CreativeAgent.js`), the SupportAgent
(`server/agents/SupportAgent.js`) and the `/api/process-message` route
(`server/routes/api.js`).

External collaborators (the OpenAI chat-completion call, the image
generation call, and the platform's `JSON.parse`) are modelled as
function parameters: a call either throws (`Except.error`) or yields a
value, exactly the two outcomes the JavaScript `try`/`catch` blocks
distinguish.  Machine state (the SupportAgent's in-memory
`conversationHistory` map) is passed explicitly as a total function
from userId to turn list, with the empty list standing for an absent
key (the lazy `conversationHistory[userId] = []` creation is a no-op
under this reading).
-/

/-- Roles of a chat message, as used in the OpenAI message lists. -/
inductive Role where
  | system
  | user
  | assistant
deriving DecidableEq, Repr

/-- One chat message: `\x7b role, content \x7d` in the JavaScript source. -/
structure Turn where
  role : Role
  content : String
deriving DecidableEq, Repr

/-- A JSON value, the result type of the platform's `JSON.parse`. -/
inductive Json where
  | null
  | bool (b : Bool)
  | num (n : Int)
  | str (s : String)
  | arr (elems : List Json)
  | obj (fields : List (String × Json))
deriving Repr

/-- Errors thrown by external calls; the code never inspects them, so a
message string suffices. -/
inductive JsError where
  | err (msg : String)
deriving DecidableEq, Repr

/-- Tests whether `needle` is a leading segment of `hay`. -/
def matchesHere : List Char → List Char → Bool
  | [], _ => true
  | _ :: _, [] => false
  | c :: cs, d :: ds => c == d && matchesHere cs ds

/-- Tests whether `needle` occurs contiguously inside `hay`. -/
def hasSubstr : List Char → List Char → Bool
  | [], needle => matchesHere needle []
  | c :: cs, needle => matchesHere needle (c :: cs) || hasSubstr cs needle

/-- JavaScript's `String.prototype.includes`: case-sensitive substring
containment, receiver first. -/
def includes (s sub : String) : Bool :=
  hasSubstr s.toList sub.toList

/-- Lower-cases every character of a string; used only to state the
case-sensitivity claim about the router. -/
def lowerStr (s : String) : String :=
  String.mk (s.toList.map Char.toLower)

/-- A request to the chat-completion collaborator: the argument object of
`openai.chat.completions.create` (`messages`, `model`, optional
`max_tokens`). -/
structure ChatRequest where
  messages : List Turn
  model : String
  maxTokens : Option Nat
deriving DecidableEq, Repr

/-- The JobBrief record the Orchestrator builds for the CreativeAgent. -/
structure JobBrief where
  description : String
  userId : String
deriving DecidableEq, Repr

/-- Prompt built by `CreativeAgent.generateQuote` from the brief. -/
def quotePrompt (jobBrief : JobBrief) : String :=
  "Based on this marketing job description: \"" ++ jobBrief.description ++
  "\", generate a detailed quote in ZAR. The quote should include a breakdown of costs for video, image, and copywriting creation. Format the response as JSON: \x7b \"price\": 2500, \"currency\": \"ZAR\", \"breakdown\": \"1x 30s HD video, 3x social media posts\" \x7d"

/-- The chat request `generateQuote` sends: a single user turn holding the
prompt, model `gpt-4`, no token ceiling. -/
def quoteRequest (jobBrief : JobBrief) : ChatRequest :=
  ⟨[⟨Role.user, quotePrompt jobBrief⟩], "gpt-4", none⟩

/-- The fixed fallback quote returned from the catch block of
`generateQuote`. -/
def fallbackQuote : Json :=
  .obj [("price", .num 1000), ("currency", .str "ZAR"),
        ("breakdown", .str "Standard marketing package")]

/-- CreativeAgent.generateQuote.  `chatCreate` models the remote
chat-completion call returning the reply content string (any throw while
producing it, including an empty `choices`, is an `Except.error`);
`jsonParse` models the platform `JSON.parse`, with `none` for a throw on
non-JSON input.  Both failure sources are caught and replaced by
`fallbackQuote`; a successful parse is returned as-is, with no check of
its shape. -/
def generateQuote (chatCreate : ChatRequest → Except JsError String)
    (jsonParse : String → Option Json) (jobBrief : JobBrief) : Json :=
  match chatCreate (quoteRequest jobBrief) with
  | .error _ => fallbackQuote
  | .ok content =>
    match jsonParse content with
    | none => fallbackQuote
    | some quote => quote

/-- Tests whether a JSON value is an object carrying key `k`. -/
def jsonHasKey (j : Json) (k : String) : Bool :=
  match j with
  | .obj fields => fields.any (fun f => f.1 == k)
  | _ => false

/-- A well-formed Quote object: carries the keys `price`, `currency` and
`breakdown`. -/
def hasQuoteKeys (j : Json) : Bool :=
  jsonHasKey j "price" && jsonHasKey j "currency" && jsonHasKey j "breakdown"

/-- The request object `CreativeAgent.generateImage` passes to
`openai.images.generate`. -/
structure ImageGenRequest where
  model : String
  prompt : String
  size : String
  quality : String
deriving DecidableEq, Repr

/-- One element of the image response's `data` array. -/
structure ImageDatum where
  url : String
deriving DecidableEq, Repr

/-- The image generation response: its `data` array. -/
structure ImageGenResponse where
  data : List ImageDatum
deriving DecidableEq, Repr

/-- The concrete request `generateImage` builds for a prompt. -/
def imageRequest (prompt : String) : ImageGenRequest :=
  ⟨"dall-e-3", prompt, "1024x1024", "hd"⟩

/-- CreativeAgent.generateImage: no `try`/`catch` — a failing remote call
propagates; on success the URL of `response.data[0]` is returned (an
empty `data` array makes `response.data[0].url` throw a TypeError, also
propagated). -/
def generateImage (imagesGenerate : ImageGenRequest → Except JsError ImageGenResponse)
    (prompt : String) : Except JsError String :=
  match imagesGenerate (imageRequest prompt) with
  | .error e => .error e
  | .ok resp =>
    match resp.data with
    | [] => .error (.err "TypeError: Cannot read properties of undefined (reading url)")
    | d :: _ => .ok d.url

/-- The SupportAgent's in-memory `conversationHistory` map, modelled as a
total function from userId to the list of stored turns; the empty list
stands for a userId with no entry yet. -/
def Store : Type := String → List Turn

/-- The map's initial state: nothing stored for any userId. -/
def emptyStore : Store := fun _ => []

/-- The fixed system persona turn of the SupportAgent. -/
def systemTurn : Turn :=
  ⟨Role.system,
   "You are Robyn, a friendly and helpful AI support agent for AEGIS Marketing. Answer the user\x27s questions about marketing services, pricing, and their account. Be concise and helpful. If you don\x27t know something, say so."⟩

/-- The message list `generateResponse` sends: fixed system persona, the
stored history, then the new user turn. -/
def messagesFor (history : List Turn) (userMessage : String) : List Turn :=
  systemTurn :: (history ++ [⟨Role.user, userMessage⟩])

/-- The fixed apology string returned from the catch block of
`generateResponse`. -/
def apologyMessage : String :=
  "I\x27m experiencing a technical issue right now. Please try again in a moment."

/-- SupportAgent.generateResponse.  Reads (or lazily creates, a no-op
here) the history of `userId`, sends persona + history + user turn with
model `gpt-4` and `max_tokens` 250; on success appends the user turn and
the assistant reply, drops the two oldest entries when the length
exceeds 20 (`history.splice(0, 2)`), and returns the reply paired with
the updated store; on a throw of the remote call it returns the apology
string and the store unchanged.  This definition is the success path's
history update: `history.push(user)`, `history.push(assistant)`, then
`if (history.length > 20) history.splice(0, 2)`. -/
def appendExchange (history : List Turn) (userMessage aiResponse : String) : List Turn :=
  let h1 := history ++ [⟨Role.user, userMessage⟩, ⟨Role.assistant, aiResponse⟩]
  if h1.length > 20 then h1.drop 2 else h1

/-- SupportAgent.generateResponse, continued: the success path stores
`appendExchange` of the old history for `userId` and leaves every other
userId untouched. -/
def generateResponse (chatCreate : ChatRequest → Except JsError String)
    (store : Store) (userMessage userId : String) : String × Store :=
  let history := store userId
  match chatCreate ⟨messagesFor history userMessage, "gpt-4", some 250⟩ with
  | .error _ => (apologyMessage, store)
  | .ok aiResponse =>
    (aiResponse, fun u => if u = userId then appendExchange history userMessage aiResponse else store u)

/-- One inbound support exchange: the message, the userId, and the
behavior of the remote collaborator during that call. -/
structure CallInput where
  userMessage : String
  userId : String
  chatCreate : ChatRequest → Except JsError String

/-- Runs a sequence of `generateResponse` calls against a store,
threading the state. -/
def runCalls (store : Store) : List CallInput → Store
  | [] => store
  | c :: rest => runCalls (generateResponse c.chatCreate store c.userMessage c.userId).2 rest

/-- Strict user/assistant pairing: the history is a concatenation of
(user turn, assistant turn) pairs — it starts with a user turn, strictly
alternates roles, and has even length. -/
def pairsUA : List Turn → Bool
  | [] => true
  | [_] => false
  | t1 :: t2 :: rest => (t1.role == Role.user && t2.role == Role.assistant) && pairsUA rest

/-- Payload of a result envelope: a quote object or plain text. -/
inductive EnvelopeData where
  | quote (q : Json)
  | text (s : String)

/-- The `\x7b type, data \x7d` result envelope of the Orchestrator. -/
structure Envelope where
  type : String
  data : EnvelopeData

/-- The fixed message of the unrecognized-intent envelope. -/
def rephrasingMessage : String :=
  "Sorry, I did not understand your request. Please try rephrasing it."

/-- Orchestrator.processRequest.  The two agent handlers are passed as
fallible functions (`await` rethrows a handler's exception, which then
escapes the router, so the result is `Except`-valued); the router's own
branches never produce an error.  Keyword tests use JavaScript's
case-sensitive `includes`, creative checked before support, first match
wins. -/
def processRequest (genQuote : JobBrief → Except JsError Json)
    (genResponse : String → String → Except JsError String)
    (userInput userId : String) : Except JsError Envelope :=
  if includes userInput "create ad" || includes userInput "make a video" ||
      includes userInput "logo" then
    (genQuote ⟨userInput, userId⟩).map fun jobQuote => ⟨"job_quote", .quote jobQuote⟩
  else if includes userInput "support" || includes userInput "help" ||
      includes userInput "question" then
    (genResponse userInput userId).map fun chatResponse =>
      ⟨"support_response", .text chatResponse⟩
  else
    .ok ⟨"error", .text rephrasingMessage⟩

/-- Body of a POST `/api/process-message` request; either field may be
absent. -/
structure ApiRequestBody where
  message : Option String
  userId : Option String

/-- HTTP response of the route: `res.json(result)` (status 200),
`res.status(400).json(...)` or `res.status(500).json(...)`. -/
inductive ApiResponse where
  | ok200 (result : Envelope)
  | badRequest400 (error : String)
  | serverError500 (error : String)

/-- The `/api/process-message` route handler.  `process` is
`Orchestrator.processRequest` as the route sees it (fallible; the
`userId` field is forwarded as destructured, possibly absent).  A falsy
`message` (absent or empty string) short-circuits to 400 before the
Orchestrator is invoked; an exception escaping the `try` block yields
500. -/
def processMessageRoute (process : String → Option String → Except JsError Envelope)
    (body : ApiRequestBody) : ApiResponse :=
  match body.message with
  | none => .badRequest400 "Message is required"
  | some m =>
    if m = "" then .badRequest400 "Message is required"
    else
      match process m body.userId with
      | .ok result => .ok200 result
      | .error _ => .serverError500 "Internal server error"

/-- A chat collaborator that always answers with the reply `resp`; used
to instantiate theorems at concrete inputs. -/
def demoChat : ChatRequest → Except JsError String := fun _ => .ok "resp"

/-- Two concrete support exchanges for the same userId. -/
def demoCalls : List CallInput :=
  [⟨"hello", "u", demoChat⟩, ⟨"again", "u", demoChat⟩]

/-- A concrete full history: ten user/assistant pairs, twenty turns. -/
def demoHistory20 : List Turn :=
  (List.replicate 10 [Turn.mk Role.user "x", Turn.mk Role.assistant "y"]).flatten

/-- A store in which every userId already holds a full 20-turn history. -/
def demoStore20 : Store := fun _ => demoHistory20

/-- Models the platform `JSON.parse` on the one reply exercised below:
the string `"\x7b\x7d"` is valid JSON and parses to the empty object,
exactly as `JSON.parse` behaves on it. -/
def demoParse : String → Option Json :=
  fun s => if s = "\x7b\x7d" then some (.obj []) else none

/-- Recursion principle consuming a list two elements at a time,
matching the shape of `pairsUA`. -/
def twoStepInduction {motive : List Turn → Sort u} (h0 : motive [])
    (h1 : ∀ t, motive [t])
    (hstep : ∀ t1 t2 rest, motive rest → motive (t1 :: t2 :: rest)) :
    ∀ l, motive l
  | [] => h0
  | [t] => h1 t
  | t1 :: t2 :: rest => hstep t1 t2 rest (twoStepInduction h0 h1 hstep rest)

theorem pairsUA_append (m r : String) :
    ∀ h : List Turn, pairsUA h = true →
      pairsUA (h ++ [⟨Role.user, m⟩, ⟨Role.assistant, r⟩]) = true := by
  intro h
  induction h using twoStepInduction with
  | h0 => intro _; rfl
  | h1 t => intro hp; simp [pairsUA] at hp
  | hstep t1 t2 rest ih =>
    intro hp
    simp only [pairsUA, Bool.and_eq_true] at hp ⊢
    exact ⟨hp.1, ih hp.2⟩

theorem pairsUA_drop_two :
    ∀ h : List Turn, pairsUA h = true → pairsUA (h.drop 2) = true := by
  intro h hp
  match h with
  | [] => exact hp
  | [t] => simp [pairsUA] at hp
  | t1 :: t2 :: rest =>
    simp only [pairsUA, Bool.and_eq_true] at hp
    simpa using hp.2

theorem appendExchange_inv (history : List Turn) (m r : String)
    (hp : pairsUA history = true) (hl : history.length ≤ 20) :
    pairsUA (appendExchange history m r) = true ∧
      (appendExchange history m r).length ≤ 20 := by
  unfold appendExchange
  by_cases hlen : (history ++ [Turn.mk Role.user m, Turn.mk Role.assistant r]).length > 20
  · rw [if_pos hlen]
    refine ⟨pairsUA_drop_two _ (pairsUA_append m r _ hp), ?_⟩
    simp only [List.length_drop, List.length_append, List.length_cons, List.length_nil]
    omega
  · rw [if_neg hlen]
    simp only [List.length_append, List.length_cons, List.length_nil] at hlen
    refine ⟨pairsUA_append m r _ hp, ?_⟩
    simp only [List.length_append, List.length_cons, List.length_nil]
    omega

theorem generateResponse_store_inv (chat : ChatRequest → Except JsError String)
    (s : Store) (msg uid : String)
    (hinv : ∀ u, pairsUA (s u) = true ∧ (s u).length ≤ 20) :
    ∀ u, pairsUA ((generateResponse chat s msg uid).2 u) = true ∧
      ((generateResponse chat s msg uid).2 u).length ≤ 20 := by
  intro u
  cases hc : chat ⟨messagesFor (s uid) msg, "gpt-4", some 250⟩ with
  | error e => simpa [generateResponse, hc] using hinv u
  | ok resp =>
    by_cases hu : u = uid
    · subst hu
      simpa [generateResponse, hc] using
        appendExchange_inv (s u) msg resp (hinv u).1 (hinv u).2
    · simpa [generateResponse, hc, hu] using hinv u

theorem runCalls_store_inv (cs : List CallInput) :
    ∀ s : Store, (∀ u, pairsUA (s u) = true ∧ (s u).length ≤ 20) →
      ∀ u, pairsUA (runCalls s cs u) = true ∧ (runCalls s cs u).length ≤ 20 := by
  induction cs with
  | nil => intro s hinv u; simpa [runCalls] using hinv u
  | cons c rest ih =>
    intro s hinv u
    simp only [runCalls]
    exact ih _ (generateResponse_store_inv c.chatCreate s c.userMessage c.userId hinv) u

/-- C1 (amended): generateQuote substitutes the fixed fallback Quote
exactly when the remote chat call throws or when the reply content is
not parseable JSON; a reply that does parse as JSON is returned
unchanged, with no check that the keys price, currency, breakdown are
present. -/
theorem generateQuote_fallback (chatCreate : ChatRequest → Except JsError String)
    (jsonParse : String → Option Json) (jobBrief : JobBrief) :
    (∀ e : JsError, chatCreate (quoteRequest jobBrief) = .error e →
        generateQuote chatCreate jsonParse jobBrief = fallbackQuote) ∧
    (∀ content : String, chatCreate (quoteRequest jobBrief) = .ok content →
        jsonParse content = none →
        generateQuote chatCreate jsonParse jobBrief = fallbackQuote) ∧
    (∀ (content : String) (q : Json),
        chatCreate (quoteRequest jobBrief) = .ok content →
        jsonParse content = some q →
        generateQuote chatCreate jsonParse jobBrief = q) := by
  refine ⟨fun e he => ?_, fun content hc hp => ?_, fun content q hc hp => ?_⟩ <;>
    simp [generateQuote, *]

/-- Witness for C1 (amended): a throwing remote call yields exactly the
fallback Quote. -/
theorem generateQuote_fallback_witness :
    generateQuote (fun _ => .error (.err "network")) demoParse ⟨"a logo", "u1"⟩ =
      fallbackQuote :=
  (generateQuote_fallback (fun _ => .error (.err "network")) demoParse
    ⟨"a logo", "u1"⟩).1 (.err "network") rfl

/-- C1 counterexample: the reply `"\x7b\x7d"` is valid JSON that is
missing all of the keys price, currency and breakdown, yet generateQuote
returns the parsed empty object — not the fixed fallback Quote, and not
a well-formed Quote. -/
theorem generateQuote_missing_keys_counterexample :
    generateQuote (fun _ => .ok "\x7b\x7d") demoParse ⟨"a logo", "u1"⟩ = .obj [] ∧
    hasQuoteKeys (.obj []) = false ∧
    Json.obj [] ≠ fallbackQuote := by
  refine ⟨rfl, rfl, fun h => ?_⟩
  simp [fallbackQuote] at h

/-- C2: over any sequence of generateResponse calls started from the
empty store, every userId's history has at most 20 entries and is a
strict alternation of user/assistant pairs starting with a user turn;
moreover a successful call on a history that the two appends carry past
the cap stores exactly the appended history with its two oldest entries
dropped. -/
theorem supportHistory_bounded_alternating (cs : List CallInput) (uid : String)
    (s : Store) (chat : ChatRequest → Except JsError String) (msg userId resp : String)
    (hok : chat ⟨messagesFor (s userId) msg, "gpt-4", some 250⟩ = .ok resp)
    (hfull : 20 < (s userId).length + 2) :
    (runCalls emptyStore cs uid).length ≤ 20 ∧
    pairsUA (runCalls emptyStore cs uid) = true ∧
    (generateResponse chat s msg userId).2 userId =
      (s userId ++ [Turn.mk Role.user msg, Turn.mk Role.assistant resp]).drop 2 := by
  have hbase : ∀ u, pairsUA (emptyStore u) = true ∧ (emptyStore u).length ≤ 20 := by
    intro u; exact ⟨rfl, by simp [emptyStore]⟩
  have hinv := runCalls_store_inv cs emptyStore hbase uid
  refine ⟨hinv.2, hinv.1, ?_⟩
  have hgt : (s userId ++ [Turn.mk Role.user msg, Turn.mk Role.assistant resp]).length > 20 := by
    simp only [List.length_append, List.length_cons, List.length_nil]
    omega
  simp [generateResponse, hok, appendExchange, hgt]
  intro hle
  exact absurd hle (by omega)

/-- Witness for C2: two concrete calls land a 4-entry history, and one
successful call on a full 20-entry history evicts the oldest pair. -/
theorem supportHistory_bounded_alternating_witness :
    (runCalls emptyStore demoCalls "u").length ≤ 20 ∧
    pairsUA (runCalls emptyStore demoCalls "u") = true ∧
    (generateResponse demoChat demoStore20 "msg" "u").2 "u" =
      (demoStore20 "u" ++ [Turn.mk Role.user "msg", Turn.mk Role.assistant "resp"]).drop 2 :=
  supportHistory_bounded_alternating demoCalls "u" demoStore20 demoChat "msg" "u" "resp"
    rfl (by decide)

/-- C3: when the remote call of generateResponse throws, the returned
text is the fixed apology string and the store — in particular the
history of the calling userId — is exactly the store before the call;
the user's own turn is not appended. -/
theorem generateResponse_failure_apology (chat : ChatRequest → Except JsError String)
    (s : Store) (msg uid : String) (e : JsError)
    (h : chat ⟨messagesFor (s uid) msg, "gpt-4", some 250⟩ = .error e) :
    (generateResponse chat s msg uid).1 = apologyMessage ∧
    (generateResponse chat s msg uid).2 = s := by
  simp [generateResponse, h]

/-- Witness for C3: a throwing remote call returns the apology and
leaves the empty store untouched. -/
theorem generateResponse_failure_apology_witness :
    (generateResponse (fun _ => .error (.err "boom")) emptyStore "hi" "u").1 =
      apologyMessage ∧
    (generateResponse (fun _ => .error (.err "boom")) emptyStore "hi" "u").2 =
      emptyStore :=
  generateResponse_failure_apology (fun _ => .error (.err "boom")) emptyStore "hi" "u"
    (.err "boom") rfl

/-- C4: any message containing one of the creative keywords — even when
a support keyword is also present, since the creative test is checked
first — is dispatched to the Creative Handler and, on handler success,
yields an envelope of type job_quote carrying the handler's quote. -/
theorem processRequest_creative_first (genQuote : JobBrief → Except JsError Json)
    (genResponse : String → String → Except JsError String)
    (m uid : String) (q : Json)
    (hkw : (includes m "create ad" || includes m "make a video" ||
        includes m "logo") = true)
    (hq : genQuote ⟨m, uid⟩ = .ok q) :
    processRequest genQuote genResponse m uid = .ok ⟨"job_quote", .quote q⟩ := by
  simp [processRequest, hkw, hq, Except.map]

/-- Witness for C4: a message containing both a support keyword and a
creative keyword is routed to the Creative Handler. -/
theorem processRequest_creative_first_witness :
    processRequest (fun _ => .ok fallbackQuote) (fun _ _ => .ok "chat")
      "please help me create ad" "u1" = .ok ⟨"job_quote", .quote fallbackQuote⟩ :=
  processRequest_creative_first (fun _ => .ok fallbackQuote) (fun _ _ => .ok "chat")
    "please help me create ad" "u1" fallbackQuote (by decide) rfl

/-- C5: any message containing a support keyword and none of the
creative keywords is dispatched to the Support Handler and, on handler
success, yields an envelope of type support_response carrying the
handler's reply. -/
theorem processRequest_support_match (genQuote : JobBrief → Except JsError Json)
    (genResponse : String → String → Except JsError String)
    (m uid r : String)
    (hnc : (includes m "create ad" || includes m "make a video" ||
        includes m "logo") = false)
    (hkw : (includes m "support" || includes m "help" ||
        includes m "question") = true)
    (hr : genResponse m uid = .ok r) :
    processRequest genQuote genResponse m uid = .ok ⟨"support_response", .text r⟩ := by
  simp [processRequest, hnc, hkw, hr, Except.map]

/-- Witness for C5: a help request with no creative keyword is routed to
the Support Handler. -/
theorem processRequest_support_match_witness :
    processRequest (fun _ => .ok fallbackQuote) (fun _ _ => .ok "chat")
      "I need help with my account" "u1" = .ok ⟨"support_response", .text "chat"⟩ :=
  processRequest_support_match (fun _ => .ok fallbackQuote) (fun _ _ => .ok "chat")
    "I need help with my account" "u1" "chat" (by decide) (by decide) rfl

/-- C6: a message containing none of the six keywords yields the fixed
error envelope, for every pair of handlers — the router's own branches
are total and never produce an error; any error of processRequest is the
error of the handler it dispatched to. -/
theorem processRequest_no_match_error (genQuote : JobBrief → Except JsError Json)
    (genResponse : String → String → Except JsError String) (m uid : String)
    (hnc : (includes m "create ad" || includes m "make a video" ||
        includes m "logo") = false)
    (hns : (includes m "support" || includes m "help" ||
        includes m "question") = false) :
    processRequest genQuote genResponse m uid = .ok ⟨"error", .text rephrasingMessage⟩ ∧
    (∀ (gq : JobBrief → Except JsError Json)
       (gr : String → String → Except JsError String) (m2 uid2 : String) (e : JsError),
        processRequest gq gr m2 uid2 = .error e →
        gq ⟨m2, uid2⟩ = .error e ∨ gr m2 uid2 = .error e) := by
  constructor
  · simp [processRequest, hnc, hns]
  · intro gq gr m2 uid2 e h
    unfold processRequest at h
    split at h
    · left
      cases hq : gq ⟨m2, uid2⟩ with
      | error e2 => rw [hq] at h; simp [Except.map] at h; rw [h]
      | ok v => rw [hq] at h; simp [Except.map] at h
    · split at h
      · right
        cases hr : gr m2 uid2 with
        | error e2 => rw [hr] at h; simp [Except.map] at h; rw [h]
        | ok v => rw [hr] at h; simp [Except.map] at h
      · simp at h

/-- Witness for C6: an unclassified message yields the fixed error
envelope even with throwing handlers installed. -/
theorem processRequest_no_match_error_witness :
    processRequest (fun _ => .error (.err "boom")) (fun _ _ => .error (.err "boom"))
      "good morning" "u1" = .ok ⟨"error", .text rephrasingMessage⟩ :=
  (processRequest_no_match_error (fun _ => .error (.err "boom"))
    (fun _ _ => .error (.err "boom")) "good morning" "u1" (by decide) (by decide)).1

/-- C7: a first successful exchange for a userId with no stored history
stores exactly the two-turn history [user turn, assistant turn] and
returns the reply; the message list sent to the remote model always
starts with the constant system persona turn, which never appears in the
stored history. -/
theorem generateResponse_first_exchange (chat : ChatRequest → Except JsError String)
    (s : Store) (msg uid resp : String)
    (hfresh : s uid = [])
    (hok : chat ⟨messagesFor [] msg, "gpt-4", some 250⟩ = .ok resp) :
    (generateResponse chat s msg uid).2 uid =
      [Turn.mk Role.user msg, Turn.mk Role.assistant resp] ∧
    (generateResponse chat s msg uid).1 = resp ∧
    (∀ (history : List Turn) (m : String),
        messagesFor history m = systemTurn :: (history ++ [Turn.mk Role.user m])) ∧
    systemTurn ∉ (generateResponse chat s msg uid).2 uid := by
  have h2 : (generateResponse chat s msg uid).2 uid =
      [Turn.mk Role.user msg, Turn.mk Role.assistant resp] := by
    simp [generateResponse, hfresh, hok, appendExchange]
  refine ⟨h2, ?_, fun history m => rfl, ?_⟩
  · simp [generateResponse, hfresh, hok]
  · rw [h2]
    simp [systemTurn]

/-- Witness for C7: a first call against the empty store stores exactly
one user/assistant pair. -/
theorem generateResponse_first_exchange_witness :
    (generateResponse demoChat emptyStore "hello" "u1").2 "u1" =
      [Turn.mk Role.user "hello", Turn.mk Role.assistant "resp"] ∧
    (generateResponse demoChat emptyStore "hello" "u1").1 = "resp" ∧
    (∀ (history : List Turn) (m : String),
        messagesFor history m = systemTurn :: (history ++ [Turn.mk Role.user m])) ∧
    systemTurn ∉ (generateResponse demoChat emptyStore "hello" "u1").2 "u1" :=
  generateResponse_first_exchange demoChat emptyStore "hello" "u1" "resp" rfl rfl

/-- C8: the process-message route answers 400 with the fixed error body
when the message field is absent or empty — for every installed
Orchestrator, so the router is never invoked on that path — answers 200
with the router's envelope when the router returns one, and answers 500
with the fixed error body when an exception escapes. -/
theorem processMessageRoute_statuses
    (process : String → Option String → Except JsError Envelope)
    (uid : Option String) (m : String) (env : Envelope) (e : JsError) :
    processMessageRoute process ⟨none, uid⟩ = .badRequest400 "Message is required" ∧
    processMessageRoute process ⟨some "", uid⟩ = .badRequest400 "Message is required" ∧
    (m ≠ "" → process m uid = .ok env →
        processMessageRoute process ⟨some m, uid⟩ = .ok200 env) ∧
    (m ≠ "" → process m uid = .error e →
        processMessageRoute process ⟨some m, uid⟩ =
          .serverError500 "Internal server error") := by
  refine ⟨rfl, by simp [processMessageRoute], fun hm hp => ?_, fun hm hp => ?_⟩ <;>
    simp [processMessageRoute, hm, hp]

/-- Witness for C8: a nonempty message with a successfully answering
Orchestrator yields 200 with the router's envelope. -/
theorem processMessageRoute_statuses_witness :
    processMessageRoute (fun _ _ => .ok ⟨"error", .text rephrasingMessage⟩)
      ⟨some "hi", some "u1"⟩ = .ok200 ⟨"error", .text rephrasingMessage⟩ :=
  (processMessageRoute_statuses (fun _ _ => .ok ⟨"error", .text rephrasingMessage⟩)
    (some "u1") "hi" ⟨"error", .text rephrasingMessage⟩ (.err "x")).2.2.1
    (by decide) rfl

/-- C9: generateImage has no catch-and-fallback — a throwing image call
propagates its error unchanged past the handler's boundary, and on
success the URL of the first response datum is returned. -/
theorem generateImage_no_fallback
    (imagesGenerate : ImageGenRequest → Except JsError ImageGenResponse)
    (prompt url : String) (rest : List ImageDatum) (e : JsError) :
    (imagesGenerate (imageRequest prompt) = .error e →
        generateImage imagesGenerate prompt = .error e) ∧
    (imagesGenerate (imageRequest prompt) = .ok ⟨⟨url⟩ :: rest⟩ →
        generateImage imagesGenerate prompt = .ok url) := by
  constructor <;> intro h <;> simp [generateImage, h]

/-- Witness for C9: a throwing image call makes generateImage itself
throw with the same error. -/
theorem generateImage_no_fallback_witness :
    generateImage (fun _ => .error (.err "rate limit")) "a cat" =
      .error (.err "rate limit") :=
  (generateImage_no_fallback (fun _ => .error (.err "rate limit")) "a cat" "" []
    (.err "rate limit")).1 rfl

/-- C10: the router's substring tests are case-sensitive — a message
containing keywords only in a different letter case (its lower-casing
contains a keyword) but none in exact lowercase form yields the fixed
error envelope instead of a handler dispatch. -/
theorem processRequest_case_sensitive (genQuote : JobBrief → Except JsError Json)
    (genResponse : String → String → Except JsError String) (m uid : String)
    (_hci : (includes (lowerStr m) "create ad" || includes (lowerStr m) "make a video" ||
        includes (lowerStr m) "logo" || includes (lowerStr m) "support" ||
        includes (lowerStr m) "help" || includes (lowerStr m) "question") = true)
    (hnc : (includes m "create ad" || includes m "make a video" ||
        includes m "logo") = false)
    (hns : (includes m "support" || includes m "help" ||
        includes m "question") = false) :
    processRequest genQuote genResponse m uid =
      .ok ⟨"error", .text rephrasingMessage⟩ := by
  simp [processRequest, hnc, hns]

/-- Witness for C10: the message Logo design please matches the keyword
logo only up to letter case and is not dispatched. -/
theorem processRequest_case_sensitive_witness :
    processRequest (fun _ => .ok fallbackQuote) (fun _ _ => .ok "chat")
      "Logo design please" "u1" = .ok ⟨"error", .text rephrasingMessage⟩ :=
  processRequest_case_sensitive (fun _ => .ok fallbackQuote) (fun _ _ => .ok "chat")
    "Logo design please" "u1" (by decide) (by decide) (by decide)
